import Mathlib

/-!
Shallow embedding of the ModelPhi phishing-awareness assessment suite.

Sources embedded here:
* `phishing_user_tester.py` — `PhishingTester.calculate_results`,
  `provide_feedback` (improvement areas), `save_to_assessment_database`.
* `phishing_model_trainer.py` — `PhishingModelTrainer.load_answer_sheet`,
  `calculate_user_scores`, `classify_awareness_level`.
* `phishing_educational_resources.py` — `PhishingEducationalManager.assess_knowledge_level`,
  `get_learning_resources`.

Python floats are modelled as rationals (`ℚ`); Python dicts that are used as
ordered key/value stores are modelled as association lists preserving
insertion order; the random sample drawn by `np.random.choice` is passed as an
explicit list of indices.
-/

/-- Runtime tier table from `PhishingTester.calculate_results`
(`phishing_user_tester.py` lines 233-240). -/
def tier_for (percentage : ℚ) : String :=
  if percentage ≥ 75 then "Expert"
  else if percentage ≥ 50 then "Intermediate"
  else if percentage ≥ 25 then "Basic"
  else "Beginner"

/-- One entry of the `user_scores` dict built by `conduct_quiz`
(`phishing_user_tester.py` lines 206-210). Marks in the answer sheet are
integers, so scores are modelled as `ℤ`. -/
structure ScoreInfo where
  answer : String
  score : ℤ
  level : String
deriving Repr, DecidableEq

/-- Sum of the per-question scores of a response set. -/
def totalScore (user_scores : List (String × ScoreInfo)) : ℤ :=
  (user_scores.map fun q => q.2.score).sum

/-- `PhishingTester.calculate_results` (`phishing_user_tester.py` lines 221-242):
returns `(total_score, percentage, overall_level)`. -/
def calculate_results (user_scores : List (String × ScoreInfo)) : ℤ × ℚ × String :=
  if user_scores.isEmpty then (0, 0, "Beginner")
  else
    let total := totalScore user_scores
    let max_possible : ℤ := user_scores.length * 10
    let percentage : ℚ :=
      if max_possible > 0 then (total : ℚ) / (max_possible : ℚ) * 100 else 0
    (total, percentage, tier_for percentage)

/-- Training-path tier table `get_level` inside
`PhishingModelTrainer.classify_awareness_level`
(`phishing_model_trainer.py` lines 169-177). -/
def get_level (percentage : ℚ) : String :=
  if percentage ≥ 70 then "Expert"
  else if percentage ≥ 45 then "Intermediate"
  else if percentage ≥ 20 then "Basic"
  else "Beginner"

/-- Python `str.lower()`, character-wise (the answer sheets and names are
ASCII, where `Char.toLower` agrees with Python). -/
def pyLower (s : String) : String := ⟨s.toList.map Char.toLower⟩

/-- Drop leading whitespace from a character list. -/
def dropLeadingWs : List Char → List Char
  | [] => []
  | c :: cs => if c.isWhitespace then dropLeadingWs cs else c :: cs

/-- Python `str.strip()`: remove leading and trailing whitespace. -/
def pyStrip (s : String) : String :=
  ⟨(dropLeadingWs (dropLeadingWs s.toList).reverse).reverse⟩

/-- Accumulator pass for `pyWords`: split on whitespace, dropping empty pieces. -/
def wordsAux : List Char → List Char → List String
  | [], acc => if acc.isEmpty then [] else [⟨acc.reverse⟩]
  | c :: cs, acc =>
    if c.isWhitespace then
      if acc.isEmpty then wordsAux cs [] else String.mk acc.reverse :: wordsAux cs []
    else wordsAux cs (c :: acc)

/-- Python `str.split()` with no argument: split on whitespace runs, no empty
pieces. -/
def pyWords (s : String) : List String := wordsAux s.toList []

/-- Boolean test that the first character list starts the second, used to build
substring containment. -/
def listStartsWith : List Char → List Char → Bool
  | [], _ => true
  | _ :: _, [] => false
  | a :: as, b :: bs => a == b && listStartsWith as bs

/-- Python substring containment `needle in hay`. -/
def strContains (hay needle : String) : Bool :=
  (List.range (hay.toList.length + 1)).any fun i =>
    listStartsWith needle.toList (hay.toList.drop i)

/-- One option of a question in the answer sheet: text, marks (weight), level.
Marks are the integer `marks` values of the JSON answer sheet. -/
structure QOpt where
  text : String
  marks : ℤ
  level : String
deriving Repr, DecidableEq

/-- Exact case-insensitive match test from
`PhishingModelTrainer.calculate_user_scores` line 128:
`user_answer.lower() == answer_option.lower()`. -/
def exactMatches (optionText userAnswer : String) : Bool :=
  pyLower userAnswer == pyLower optionText

/-- Fallback match test from `calculate_user_scores` line 136:
`any(word in user_answer.lower() for word in answer_option.lower().split()[:3])`,
i.e. some of the first three whitespace-separated words of the lowercased option
text occurs as a substring of the lowercased user answer. -/
def fallbackMatches (optionText userAnswer : String) : Bool :=
  ((pyWords (pyLower optionText)).take 3).any fun w => strContains (pyLower userAnswer) w

/-- Matching of one recorded answer against a question's options,
`PhishingModelTrainer.calculate_user_scores` lines 122-146. `score` starts at 0
and `level` at the sentinel Wrong; the first exact case-insensitive match sets
them; whenever the score is still 0 afterwards (no exact match, or an exact
match whose weight is 0) the first fallback match in iteration order overrides
them; returns `(score, level)`. -/
def matchAnswer (opts : List QOpt) (userAnswer : String) : ℤ × String :=
  match opts.find? fun o => exactMatches o.text userAnswer with
  | some o =>
    if o.marks = 0 then
      match opts.find? fun o => fallbackMatches o.text userAnswer with
      | some o2 => (o2.marks, o2.level)
      | none => (0, o.level)
    else (o.marks, o.level)
  | none =>
    match opts.find? fun o => fallbackMatches o.text userAnswer with
    | some o2 => (o2.marks, o2.level)
    | none => (0, "Wrong")

/-- Per-row score accumulation from `calculate_user_scores` lines 110-151: for
each question of the answer sheet, when it is a column of the dataset row and
has weights, the matched score of the stripped answer is added. The row is the
CSV row as an association from column name to recorded answer text. -/
def rowScore (questions : List String) (answer_weights : List (String × List QOpt))
    (row : List (String × String)) : ℤ :=
  questions.foldl (fun acc q =>
    match row.lookup q with
    | none => acc
    | some ans =>
      match answer_weights.lookup q with
      | none => acc
      | some opts => acc + (matchAnswer opts (pyStrip ans)).1) 0

/-- Row percentage from `calculate_user_scores` lines 155-157: the denominator is
the fixed constant `max_possible_score = 100` (10 questions times 10 points),
independent of how many questions were actually scored. -/
def trainerPercentage (score : ℤ) : ℚ := (score : ℚ) / 100 * 100

/-- Relabel target by sample position, `classify_awareness_level` lines 192-198:
the first third of the sample becomes Basic, the second third Intermediate, the
rest Expert. -/
def relabelTarget (total i : ℕ) : String :=
  if i < total / 3 then "Basic"
  else if i < 2 * total / 3 then "Intermediate"
  else "Expert"

/-- Loop of `classify_awareness_level` lines 192-198: write the relabel targets
at the sampled row indices, in sample order. -/
def relabelAux (total : ℕ) : ℕ → List ℕ → List String → List String
  | _, [], labels => labels
  | i, idx :: rest, labels => relabelAux total (i + 1) rest (labels.set idx (relabelTarget total i))

/-- `PhishingModelTrainer.classify_awareness_level`
(`phishing_model_trainer.py` lines 167-203): apply `get_level` to every row
percentage; when the resulting label set collapses to a single distinct value,
relabel the rows drawn by the unseeded `np.random.choice(n, min(100, n div 4),
replace=False)`; the drawn sample is passed here explicitly as `sampleIndices`. -/
def classify_awareness_level (percentages : List ℚ) (sampleIndices : List ℕ) : List String :=
  let labels := percentages.map get_level
  if labels.dedup.length = 1 then relabelAux sampleIndices.length 0 sampleIndices labels
  else labels

/-- Ordering of improvement areas `(question, current_level, score)` by score,
used by `improvement_areas.sort(key=lambda x: x[score])`. -/
def scoreLE (a b : String × String × ℤ) : Prop := a.2.2 ≤ b.2.2

instance : DecidableRel scoreLE := fun a b => inferInstanceAs (Decidable (a.2.2 ≤ b.2.2))

instance : IsTotal (String × String × ℤ) scoreLE := ⟨fun a b => le_total a.2.2 b.2.2⟩

instance : IsTrans (String × String × ℤ) scoreLE := ⟨fun _ _ _ h1 h2 => le_trans h1 h2⟩

/-- Improvement-area selection from `PhishingTester.provide_feedback`
(`phishing_user_tester.py` lines 417-432 and 460): the answered questions with
score strictly below 10, as `(question, current_level, score)` triples, sorted
ascending by score with Python's stable sort (modelled by `insertionSort`,
which is also stable). -/
def improvement_areas (user_scores : List (String × ScoreInfo)) : List (String × String × ℤ) :=
  List.insertionSort scoreLE
    ((user_scores.filter fun q => q.2.score < 10).map fun q => (q.1, q.2.level, q.2.score))

/-- The entries guidance is composed for, `provide_feedback` line 462:
`improvement_areas[:3]`. -/
def priority_areas (user_scores : List (String × ScoreInfo)) : List (String × String × ℤ) :=
  (improvement_areas user_scores).take 3

/-- One record of the assessment database, `save_to_assessment_database`
(`phishing_user_tester.py` lines 324-334); the timestamp is omitted as no claim
mentions it. -/
structure AssessmentRecord where
  name : String
  gender : String
  education_level : String
  proficiency : String
  total_score : ℤ
  percentage : ℚ
  overall_knowledge_level : String
deriving Repr, DecidableEq

/-- The lowercased names of a database state, in record order. -/
def namesLower (db : List AssessmentRecord) : List String :=
  db.map fun a => pyLower a.name

/-- Upsert of `save_to_assessment_database` (`phishing_user_tester.py` lines
350-362): replace the first record whose name matches case-insensitively,
append at the end otherwise. -/
def upsertAssessment : List AssessmentRecord → AssessmentRecord → List AssessmentRecord
  | [], r => [r]
  | a :: rest, r =>
    if pyLower a.name = pyLower r.name then r :: rest
    else a :: upsertAssessment rest r

/-- JSON values, for the answer-sheet loader. -/
inductive Json where
  | null
  | bool (b : Bool)
  | num (q : ℚ)
  | str (s : String)
  | arr (xs : List Json)
  | obj (fields : List (String × Json))

/-- Python subscript `j[k]` on a parsed JSON value: a KeyError on a dict
without the key, a TypeError on a non-dict. -/
def jGet (j : Json) (k : String) : Except String Json :=
  match j with
  | .obj fs =>
    match fs.lookup k with
    | some v => .ok v
    | none => .error "KeyError"
  | _ => .error "TypeError"

/-- Top-level guard of `load_answer_sheet` line 29 (and `load_components` line
32): Python `questions in data and isinstance(data[questions], list)`. On a
dict, `in` tests the key and the second conjunct tests the list-ness of its
value; on a list (element membership) or a string (substring containment),
when the `in` test holds the subscript `data["questions"]` itself raises
TypeError; on every other top level (number, bool, null) the `in` operator
raises TypeError. Returns `ok (some qs)` when the guard holds, `ok none` when
it evaluates to false, and the raised error otherwise. -/
def questionsGuard (data : Json) : Except String (Option (List Json)) :=
  match data with
  | .obj fs =>
    match fs.lookup "questions" with
    | some (.arr qs) => .ok (some qs)
    | _ => .ok none
  | .arr xs =>
    if xs.any fun j => match j with | .str s => s == "questions" | _ => false
    then .error "TypeError"
    else .ok none
  | .str s =>
    if strContains s "questions" then .error "TypeError"
    else .ok none
  | _ => .error "TypeError"

/-- One option entry of `load_answer_sheet` lines 34-38, as
`(text, marks, level)`; Python evaluates the dict literal (marks, level)
before the subscript key (text). -/
def parseOption (o : Json) : Except String (Json × Json × Json) := do
  let m ← jGet o "marks"
  let l ← jGet o "level"
  let t ← jGet o "text"
  pure (t, m, l)

/-- One question entry of `load_answer_sheet` lines 30-41: the question text
and its option entries in file order; iterating a non-list `options` value is
modelled as an error. -/
def parseQuestion (q : Json) : Except String (Json × List (Json × Json × Json)) := do
  let qt ← jGet q "question"
  let os ← (match ← jGet q "options" with
            | .arr os => pure os
            | _ => Except.error "TypeError")
  let opts ← os.mapM parseOption
  pure (qt, opts)

/-- `PhishingModelTrainer.load_answer_sheet` (`phishing_model_trainer.py` lines
21-43). The input is `none` when the file is missing, in which case Python's
`open` raises FileNotFoundError which propagates; errors raised by the
top-level guard propagate likewise; when the guard evaluates to false the
population loop is skipped and the loader silently returns the empty answer
key. -/
def load_answer_sheet (file : Option Json) :
    Except String (List (Json × List (Json × Json × Json))) :=
  match file with
  | none => .error "FileNotFoundError"
  | some data =>
    match questionsGuard data with
    | .error e => .error e
    | .ok none => .ok []
    | .ok (some qs) => qs.mapM parseQuestion

/-- `PhishingEducationalManager.assess_knowledge_level`
(`phishing_educational_resources.py` lines 65-72). -/
def assess_knowledge_level (quiz_score : ℚ) : String :=
  if quiz_score ≥ 80 then "advanced"
  else if quiz_score ≥ 60 then "intermediate"
  else "beginner"

/-- An article resource of `learning_resources`. -/
structure Resource where
  title : String
  url : String
  description : String
deriving Repr, DecidableEq

/-- A video resource of `learning_resources`. -/
structure VideoResource where
  title : String
  platform : String
  description : String
deriving Repr, DecidableEq

/-- One level bucket of `learning_resources`; `videos` is `none` where the
Python dict has no `videos` key. -/
structure ResourceBucket where
  articles : List Resource
  videos : Option (List VideoResource)
deriving Repr, DecidableEq

/-- The `beginner` bucket of `learning_resources`
(`phishing_educational_resources.py` lines 9-34). -/
def beginnerBucket : ResourceBucket :=
  { articles := [
      ⟨"What is Phishing? - FTC Guide",
       "https://consumer.ftc.gov/articles/how-recognize-and-avoid-phishing-scams",
       "Official FTC guide on recognizing and avoiding phishing scams"⟩,
      ⟨"Email Security Basics - CISA",
       "https://www.cisa.gov/email-security",
       "CISA guide to email security fundamentals"⟩,
      ⟨"Phishing Prevention Tips",
       "https://www.cyber.gov.au/acsc/view-all-content/threats/phishing",
       "Australian Cyber Security Centre phishing prevention guide"⟩],
    videos := some [
      ⟨"Phishing Awareness 101", "Educational Content",
       "Basic concepts of phishing and email security"⟩] }

/-- The `intermediate` bucket of `learning_resources` (lines 35-48). -/
def intermediateBucket : ResourceBucket :=
  { articles := [
      ⟨"Advanced Email Security - NIST",
       "https://csrc.nist.gov/publications/detail/sp/800-177/rev-1/final",
       "NIST guidelines for secure email systems"⟩,
      ⟨"Phishing Techniques and Countermeasures",
       "https://www.cisa.gov/phishing-guidance",
       "CISA comprehensive phishing guidance"⟩],
    videos := none }

/-- The `advanced` bucket of `learning_resources` (lines 49-63). -/
def advancedBucket : ResourceBucket :=
  { articles := [
      ⟨"Enterprise Anti-Phishing Solutions",
       "https://csrc.nist.gov/projects/phishing-resistance",
       "NIST phishing resistance frameworks"⟩,
      ⟨"Advanced Threat Protection",
       "https://www.cisa.gov/advanced-persistent-threats",
       "CISA guide to advanced persistent threats and protection"⟩],
    videos := none }

/-- The `learning_resources` dict of `PhishingEducationalManager.__init__`. -/
def learning_resources : List (String × ResourceBucket) :=
  [("beginner", beginnerBucket), ("intermediate", intermediateBucket),
   ("advanced", advancedBucket)]

/-- `PhishingEducationalManager.get_learning_resources` (lines 74-76):
`self.learning_resources.get(knowledge_level, self.learning_resources[beginner])`. -/
def get_learning_resources (knowledge_level : String) : ResourceBucket :=
  (learning_resources.lookup knowledge_level).getD beginnerBucket

/-- C1: the runtime tier classification is a pure function of the percentage with
exact, non-overlapping, upper-closed thresholds: `p ≥ 75 → Expert`,
`50 ≤ p < 75 → Intermediate`, `25 ≤ p < 50 → Basic`, `p < 25 → Beginner`;
in particular the six boundary evaluations of the claim hold. -/
theorem C1_runtime_tier_table :
    (∀ p : ℚ, 75 ≤ p → tier_for p = "Expert") ∧
    (∀ p : ℚ, 50 ≤ p → p < 75 → tier_for p = "Intermediate") ∧
    (∀ p : ℚ, 25 ≤ p → p < 50 → tier_for p = "Basic") ∧
    (∀ p : ℚ, p < 25 → tier_for p = "Beginner") ∧
    tier_for (24.999 : ℚ) = "Beginner" ∧
    tier_for (25.0 : ℚ) = "Basic" ∧
    tier_for (49.999 : ℚ) = "Basic" ∧
    tier_for (50.0 : ℚ) = "Intermediate" ∧
    tier_for (74.999 : ℚ) = "Intermediate" ∧
    tier_for (75.0 : ℚ) = "Expert" := by
  refine ⟨?_, ?_, ?_, ?_, by norm_num [tier_for], by norm_num [tier_for],
    by norm_num [tier_for], by norm_num [tier_for], by norm_num [tier_for],
    by norm_num [tier_for]⟩ <;>
  · intro p
    simp only [tier_for]
    intros
    split_ifs <;> first | rfl | linarith

/-- Witness for C1 at concrete percentages. -/
theorem C1_runtime_tier_table_w :
    tier_for (80 : ℚ) = "Expert" ∧ tier_for (60 : ℚ) = "Intermediate" ∧
    tier_for (30 : ℚ) = "Basic" ∧ tier_for (10 : ℚ) = "Beginner" :=
  ⟨C1_runtime_tier_table.1 80 (by norm_num),
   C1_runtime_tier_table.2.1 60 (by norm_num) (by norm_num),
   C1_runtime_tier_table.2.2.1 30 (by norm_num) (by norm_num),
   C1_runtime_tier_table.2.2.2.1 10 (by norm_num)⟩

/-- C4: the dataset-training path uses its own looser tier table 70/45/20,
distinct from the runtime 75/50/25 table (at 72 the two tables disagree). -/
theorem C4_trainer_tier_table :
    (∀ p : ℚ, 70 ≤ p → get_level p = "Expert") ∧
    (∀ p : ℚ, 45 ≤ p → p < 70 → get_level p = "Intermediate") ∧
    (∀ p : ℚ, 20 ≤ p → p < 45 → get_level p = "Basic") ∧
    (∀ p : ℚ, p < 20 → get_level p = "Beginner") ∧
    get_level (72 : ℚ) = "Expert" ∧ tier_for (72 : ℚ) = "Intermediate" := by
  refine ⟨?_, ?_, ?_, ?_, by norm_num [get_level], by norm_num [tier_for]⟩ <;>
  · intro p
    simp only [get_level]
    intros
    split_ifs <;> first | rfl | linarith

/-- Witness for C4 at concrete percentages. -/
theorem C4_trainer_tier_table_w :
    get_level (70 : ℚ) = "Expert" ∧ get_level (45 : ℚ) = "Intermediate" ∧
    get_level (20 : ℚ) = "Basic" ∧ get_level (19 : ℚ) = "Beginner" :=
  ⟨C4_trainer_tier_table.1 70 (by norm_num),
   C4_trainer_tier_table.2.1 45 (by norm_num) (by norm_num),
   C4_trainer_tier_table.2.2.1 20 (by norm_num) (by norm_num),
   C4_trainer_tier_table.2.2.2.1 19 (by norm_num)⟩

/-- C5: aggregating the empty response set takes the guarded branch and returns
total score 0, percentage 0.0 and tier Beginner; no division is performed. -/
theorem C5_empty_aggregate : calculate_results [] = (0, 0, "Beginner") := rfl

/-- C2: in the dataset-scoring path, matching tries the exact case-insensitive
match first and its result stands whenever it carries a nonzero weight; only
when the exact pass leaves weight 0 does the fallback match apply, the first
option in iteration order winning; an answer matching no option at all scores
weight 0 with level sentinel Wrong. -/
theorem C2_dataset_answer_matching (opts : List QOpt) (ua : String) :
    (∀ o, (opts.find? fun o => exactMatches o.text ua) = some o →
      (o.marks ≠ 0 → matchAnswer opts ua = (o.marks, o.level)) ∧
      (o.marks = 0 → ∀ o2, (opts.find? fun o => fallbackMatches o.text ua) = some o2 →
        matchAnswer opts ua = (o2.marks, o2.level)) ∧
      (o.marks = 0 → (opts.find? fun o => fallbackMatches o.text ua) = none →
        matchAnswer opts ua = (0, o.level))) ∧
    ((opts.find? fun o => exactMatches o.text ua) = none →
      (∀ o2, (opts.find? fun o => fallbackMatches o.text ua) = some o2 →
        matchAnswer opts ua = (o2.marks, o2.level)) ∧
      ((opts.find? fun o => fallbackMatches o.text ua) = none →
        matchAnswer opts ua = (0, "Wrong"))) := by
  constructor
  · intro o he
    refine ⟨fun hm => ?_, fun hm o2 hp => ?_, fun hm hp => ?_⟩
    · simp only [matchAnswer, he, if_neg hm]
    · simp only [matchAnswer, he, if_pos hm, hp]
    · simp only [matchAnswer, he, if_pos hm, hp]
  · intro he
    refine ⟨fun o2 hp => ?_, fun hp => ?_⟩
    · simp only [matchAnswer, he, hp]
    · simp only [matchAnswer, he, hp]

/-- Witness for C2: a concrete exact match with nonzero weight wins. -/
theorem C2_dataset_answer_matching_w :
    matchAnswer [⟨"Delete the email", 10, "high"⟩, ⟨"Reply with details", 2, "low"⟩]
      "Reply With Details" = (2, "low") :=
  ((C2_dataset_answer_matching
      [⟨"Delete the email", 10, "high"⟩, ⟨"Reply with details", 2, "low"⟩]
      "Reply With Details").1
    ⟨"Reply with details", 2, "low"⟩ (by decide)).1 (by decide)

/-- C3 counterexample: a dataset row with exactly one scored question answered
for full marks gets trainer percentage 10, not the 100 that the claim's formula
`total / (question_count * 10) * 100` demands; the trainer divides by the fixed
constant 100 regardless of the question count. -/
theorem C3_trainer_fixed_denominator_cex :
    rowScore ["Q1"] [("Q1", [⟨"yes", 10, "high"⟩])] [("Q1", "yes")] = 10 ∧
    trainerPercentage 10 = 10 ∧
    ((10 : ℤ) : ℚ) / ((1 : ℚ) * 10) * 100 = 100 ∧
    trainerPercentage (rowScore ["Q1"] [("Q1", [⟨"yes", 10, "high"⟩])] [("Q1", "yes")]) ≠
      ((rowScore ["Q1"] [("Q1", [⟨"yes", 10, "high"⟩])] [("Q1", "yes")] : ℤ) : ℚ) /
        ((1 : ℚ) * 10) * 100 := by
  have hs : rowScore ["Q1"] [("Q1", [⟨"yes", 10, "high"⟩])] [("Q1", "yes")] = 10 := by decide
  refine ⟨hs, by norm_num [trainerPercentage], by norm_num, ?_⟩
  rw [hs]
  norm_num [trainerPercentage]

/-- C3 amended: in the runtime quiz path the percentage of a non-empty response
set equals `total / (question_count * 10) * 100`; in the training path the
percentage is `total / 100 * 100` with the denominator fixed at the constant
100, which coincides with the claim's formula only when exactly 10 questions
are scored. -/
theorem C3_percentage_amended (us : List (String × ScoreInfo)) (h : us ≠ []) (s : ℤ) :
    (calculate_results us).2.1 = (totalScore us : ℚ) / ((us.length : ℚ) * 10) * 100 ∧
    trainerPercentage s = (s : ℚ) / 100 * 100 := by
  constructor
  · have hne : us.isEmpty = false := by simpa [List.isEmpty_iff] using h
    simp only [calculate_results, hne, Bool.false_eq_true, if_false]
    split_ifs with hc
    · push_cast
      ring
    · exfalso
      apply hc
      have h1 : 0 < us.length := List.length_pos.mpr h
      omega
  · rfl

/-- Witness for C3 amended at a concrete one-question response set. -/
theorem C3_percentage_amended_w :
    (calculate_results [("Q1", ⟨"yes", 8, "high"⟩)]).2.1 =
      ((8 : ℤ) : ℚ) / ((1 : ℚ) * 10) * 100 ∧
    trainerPercentage 8 = ((8 : ℤ) : ℚ) / 100 * 100 :=
  C3_percentage_amended [("Q1", ⟨"yes", 8, "high"⟩)] (by decide) 8

/-- Positions outside the drawn sample are untouched by the relabel loop. -/
theorem relabelAux_getElem?_of_not_mem (total i : ℕ) (idx : List ℕ) (labels : List String)
    (j : ℕ) (hj : j ∉ idx) :
    (relabelAux total i idx labels)[j]? = labels[j]? := by
  induction idx generalizing i labels with
  | nil => rfl
  | cons a rest ih =>
    have hja : a ≠ j := fun h => hj (h ▸ List.mem_cons_self a rest)
    have hjr : j ∉ rest := fun h => hj (List.mem_cons_of_mem a h)
    simp only [relabelAux]
    rw [ih _ _ hjr, List.getElem?_set_ne hja]

/-- C6 counterexample: with four rows all classified Beginner, the sample drawn
by the unseeded RNG has size `min 100 (4 / 4) = 1`, and two equally valid draws
(row 0 versus row 1) produce different tier label columns, so the relabeling is
not deterministic in the dataset and answer key alone. -/
theorem C6_relabel_depends_on_sample_cex :
    ([0] : List ℕ).length = min 100 ([(0 : ℚ), 0, 0, 0].length / 4) ∧
    ([1] : List ℕ).length = min 100 ([(0 : ℚ), 0, 0, 0].length / 4) ∧
    classify_awareness_level [(0 : ℚ), 0, 0, 0] [0] ≠
      classify_awareness_level [(0 : ℚ), 0, 0, 0] [1] := by
  have hmap : [(0 : ℚ), 0, 0, 0].map get_level =
      ["Beginner", "Beginner", "Beginner", "Beginner"] := by norm_num [get_level]
  refine ⟨by decide, by decide, ?_⟩
  simp only [classify_awareness_level, hmap]
  decide

/-- C6 amended: no relabeling happens when at least two distinct tiers are
present, and the relabeling only ever rewrites rows of the drawn sample (whose
size the code bounds by `min 100 (n / 4)`); but the output depends on the
sample drawn by the unseeded RNG, so two runs need not agree. -/
theorem C6_relabel_amended (ps : List ℚ) (idx : List ℕ) (j : ℕ) (hj : j ∉ idx) :
    (2 ≤ (ps.map get_level).dedup.length →
      classify_awareness_level ps idx = ps.map get_level) ∧
    (classify_awareness_level ps idx)[j]? = (ps.map get_level)[j]? := by
  constructor
  · intro h2
    simp only [classify_awareness_level]
    rw [if_neg (by omega)]
  · simp only [classify_awareness_level]
    split_ifs with hc
    · exact relabelAux_getElem?_of_not_mem _ _ _ _ _ hj
    · rfl

/-- Witness for C6 amended: two tiers present means no relabeling, and a
relabeled list is unchanged at an unsampled position. -/
theorem C6_relabel_amended_w :
    classify_awareness_level [(0 : ℚ), 80] [] = [(0 : ℚ), 80].map get_level ∧
    (classify_awareness_level [(0 : ℚ), 0, 0, 0] [0])[3]? =
      ([(0 : ℚ), 0, 0, 0].map get_level)[3]? := by
  have hmap : [(0 : ℚ), 80].map get_level = ["Beginner", "Expert"] := by
    norm_num [get_level]
  refine ⟨(C6_relabel_amended [(0 : ℚ), 80] [] 0 (by decide)).1 ?_,
    (C6_relabel_amended [(0 : ℚ), 0, 0, 0] [0] 3 (by decide)).2⟩
  rw [hmap]
  decide

/-- C7: the improvement-areas list is a permutation of exactly the answered
questions scoring strictly below 10 (weight-10 answers excluded), it is sorted
ascending by score, and guidance is composed for its first three entries at
most. -/
theorem C7_improvement_areas_spec (us : List (String × ScoreInfo)) :
    (improvement_areas us).Perm
      ((us.filter fun q => q.2.score < 10).map fun q => (q.1, q.2.level, q.2.score)) ∧
    List.Sorted scoreLE (improvement_areas us) ∧
    priority_areas us = (improvement_areas us).take 3 ∧
    (priority_areas us).length ≤ 3 := by
  refine ⟨List.perm_insertionSort _ _, List.sorted_insertionSort _ _, rfl, ?_⟩
  simp only [priority_areas, List.length_take]
  exact min_le_left _ _

/-- Witness for C7 at a concrete three-question response set. -/
theorem C7_improvement_areas_spec_w :
    priority_areas [("Q1", ⟨"a", 10, "high"⟩), ("Q2", ⟨"b", 4, "low"⟩),
        ("Q3", ⟨"c", 7, "mid"⟩)] =
      (improvement_areas [("Q1", ⟨"a", 10, "high"⟩), ("Q2", ⟨"b", 4, "low"⟩),
        ("Q3", ⟨"c", 7, "mid"⟩)]).take 3 ∧
    (priority_areas [("Q1", ⟨"a", 10, "high"⟩), ("Q2", ⟨"b", 4, "low"⟩),
        ("Q3", ⟨"c", 7, "mid"⟩)]).length ≤ 3 :=
  ⟨(C7_improvement_areas_spec _).2.2.1, (C7_improvement_areas_spec _).2.2.2⟩

/-- A lowercased name present after an upsert was present before, or is the
upserted record's. -/
theorem mem_namesLower_upsert {x : String} (db : List AssessmentRecord)
    (r : AssessmentRecord) (h : x ∈ namesLower (upsertAssessment db r)) :
    x ∈ namesLower db ∨ x = pyLower r.name := by
  induction db with
  | nil =>
    simp only [upsertAssessment, namesLower, List.map_cons, List.map_nil,
      List.mem_singleton] at h
    exact Or.inr h
  | cons a rest ih =>
    simp only [upsertAssessment] at h
    split_ifs at h with hc
    · simp only [namesLower, List.map_cons, List.mem_cons] at h ⊢
      rcases h with h | h
      · exact Or.inr h
      · exact Or.inl (Or.inr h)
    · simp only [namesLower, List.map_cons, List.mem_cons] at h ⊢
      rcases h with h | h
      · exact Or.inl (Or.inl h)
      · rcases ih h with h2 | h2
        · exact Or.inl (Or.inr h2)
        · exact Or.inr h2

/-- Upsert with no case-insensitive name match appends at the end. -/
theorem upsert_of_not_mem (db : List AssessmentRecord) (r : AssessmentRecord)
    (h : pyLower r.name ∉ namesLower db) : upsertAssessment db r = db ++ [r] := by
  induction db with
  | nil => rfl
  | cons a rest ih =>
    simp only [namesLower, List.map_cons, List.mem_cons, not_or] at h
    simp only [upsertAssessment]
    rw [if_neg fun heq => h.1 heq.symm, ih fun hm => h.2 hm]
    rfl

/-- Upsert with a case-insensitive name match keeps the record count. -/
theorem upsert_length_of_mem (db : List AssessmentRecord) (r : AssessmentRecord)
    (h : pyLower r.name ∈ namesLower db) :
    (upsertAssessment db r).length = db.length := by
  induction db with
  | nil => simp [namesLower] at h
  | cons a rest ih =>
    simp only [upsertAssessment]
    split_ifs with hc
    · simp
    · simp only [namesLower, List.map_cons, List.mem_cons] at h
      rcases h with h | h
      · exact absurd h.symm hc
      · simp only [List.length_cons, ih h]

/-- Upsert preserves distinctness of lowercased names. -/
theorem upsert_nodup (db : List AssessmentRecord) (r : AssessmentRecord)
    (h : (namesLower db).Nodup) : (namesLower (upsertAssessment db r)).Nodup := by
  induction db with
  | nil => simp [upsertAssessment, namesLower]
  | cons a rest ih =>
    simp only [namesLower, List.map_cons, List.nodup_cons] at h
    simp only [upsertAssessment]
    split_ifs with hc
    · simp only [namesLower, List.map_cons, List.nodup_cons]
      refine ⟨?_, h.2⟩
      rw [← hc]
      exact h.1
    · simp only [namesLower, List.map_cons, List.nodup_cons]
      refine ⟨?_, ih h.2⟩
      intro hmem
      rcases mem_namesLower_upsert rest r hmem with h2 | h2
      · exact h.1 h2
      · exact hc h2

/-- After an upsert exactly one record carries the upserted lowercased name. -/
theorem upsert_countP (db : List AssessmentRecord) (r : AssessmentRecord)
    (h : (namesLower db).Nodup) :
    (upsertAssessment db r).countP (fun a => pyLower a.name == pyLower r.name) = 1 := by
  induction db with
  | nil => simp [upsertAssessment, List.countP_cons]
  | cons a rest ih =>
    simp only [namesLower, List.map_cons, List.nodup_cons] at h
    simp only [upsertAssessment]
    split_ifs with hc
    · rw [List.countP_cons_of_pos _ _ (by simp), List.countP_eq_zero.mpr]
      intro b hb
      simp only [beq_iff_eq]
      intro hbeq
      exact h.1 (hc ▸ hbeq ▸ List.mem_map_of_mem (fun x => pyLower x.name) hb)
    · rw [List.countP_cons_of_neg _ _ (by simpa using hc)]
      exact ih h.2

/-- C8: under case-insensitive name comparison the upsert preserves the
one-record-per-identity invariant: distinct lowered names stay distinct, a
matching submission replaces in place (same record count), a fresh name is
appended, exactly one record carries the submitted name afterwards, and
submitting Alice then alice leaves exactly the second record. -/
theorem C8_upsert_invariant (db : List AssessmentRecord) (r : AssessmentRecord)
    (h : (namesLower db).Nodup) :
    (namesLower (upsertAssessment db r)).Nodup ∧
    (pyLower r.name ∈ namesLower db → (upsertAssessment db r).length = db.length) ∧
    (pyLower r.name ∉ namesLower db → upsertAssessment db r = db ++ [r]) ∧
    (upsertAssessment db r).countP (fun a => pyLower a.name == pyLower r.name) = 1 ∧
    (∀ r1 r2 : AssessmentRecord, r1.name = "Alice" → r2.name = "alice" →
      upsertAssessment (upsertAssessment [] r1) r2 = [r2]) := by
  refine ⟨upsert_nodup db r h, upsert_length_of_mem db r, upsert_of_not_mem db r,
    upsert_countP db r h, ?_⟩
  intro r1 r2 h1 h2
  simp only [upsertAssessment]
  rw [h1, h2, if_pos (by decide)]

/-- Witness for C8: appending a fresh name to a concrete one-record database. -/
theorem C8_upsert_invariant_w :
    upsertAssessment [⟨"Bob", "Male", "O/L", "School", 50, 50, "Intermediate"⟩]
      ⟨"Carol", "Female", "A/L", "High Education", 60, 60, "Intermediate"⟩ =
    [⟨"Bob", "Male", "O/L", "School", 50, 50, "Intermediate"⟩,
     ⟨"Carol", "Female", "A/L", "High Education", 60, 60, "Intermediate"⟩] :=
  (C8_upsert_invariant [⟨"Bob", "Male", "O/L", "School", 50, 50, "Intermediate"⟩]
    ⟨"Carol", "Female", "A/L", "High Education", 60, 60, "Intermediate"⟩
    (by decide)).2.2.1 (by decide)

/-- C9 counterexample: a present answer-sheet file whose top level lacks the
`questions` list is loaded successfully as the empty answer key instead of
failing with a MalformedSource error. -/
theorem C9_silent_empty_cex :
    load_answer_sheet (some (Json.obj [])) = Except.ok [] := rfl

/-- C9 amended: loading fails (FileNotFoundError, the MissingSource case) when
the source file does not exist; but a present file whose top level is a dict
lacking the expected `questions` list (key absent, or value not a list)
silently yields the empty answer key, with no MalformedSource error raised;
a non-dict top level such as a number instead raises a TypeError from the
guard itself. -/
theorem C9_load_amended (fs : List (String × Json))
    (h : questionsGuard (Json.obj fs) = Except.ok none) :
    load_answer_sheet none = Except.error "FileNotFoundError" ∧
    load_answer_sheet (some (Json.obj fs)) = Except.ok [] ∧
    load_answer_sheet (some (Json.num 5)) = Except.error "TypeError" := by
  refine ⟨rfl, ?_, rfl⟩
  simp only [load_answer_sheet, h]

/-- Witness for C9 amended at a dict lacking the `questions` key. -/
theorem C9_load_amended_w :
    load_answer_sheet none = Except.error "FileNotFoundError" ∧
    load_answer_sheet (some (Json.obj [("q", Json.null)])) = Except.ok [] ∧
    load_answer_sheet (some (Json.num 5)) = Except.error "TypeError" :=
  C9_load_amended [("q", Json.null)] rfl

/-- C10: the educational-resources path classifies with a third threshold table
(80/60) matching neither the runtime 75/50/25 table nor the training 70/45/20
table, and a user whose quiz percentage lies in [75, 80) is rated Expert by the
quiz yet is shown the intermediate-level educational resources. -/
theorem C10_edu_threshold_table :
    (∀ s : ℚ, 80 ≤ s → assess_knowledge_level s = "advanced") ∧
    (∀ s : ℚ, 60 ≤ s → s < 80 → assess_knowledge_level s = "intermediate") ∧
    (∀ s : ℚ, s < 60 → assess_knowledge_level s = "beginner") ∧
    (∀ s : ℚ, 75 ≤ s → s < 80 →
      tier_for s = "Expert" ∧ assess_knowledge_level s = "intermediate" ∧
      get_learning_resources (assess_knowledge_level s) = intermediateBucket) ∧
    assess_knowledge_level (75 : ℚ) = "intermediate" ∧ tier_for (75 : ℚ) = "Expert" ∧
    assess_knowledge_level (45 : ℚ) = "beginner" ∧ get_level (45 : ℚ) = "Intermediate" := by
  have htab : ∀ s : ℚ, (80 ≤ s → assess_knowledge_level s = "advanced") ∧
      (60 ≤ s → s < 80 → assess_knowledge_level s = "intermediate") ∧
      (s < 60 → assess_knowledge_level s = "beginner") := by
    intro s
    refine ⟨?_, ?_, ?_⟩ <;>
    · simp only [assess_knowledge_level]
      intros
      split_ifs <;> first | rfl | linarith
  refine ⟨fun s => (htab s).1, fun s => (htab s).2.1, fun s => (htab s).2.2, ?_,
    by norm_num [assess_knowledge_level], by norm_num [tier_for],
    by norm_num [assess_knowledge_level], by norm_num [get_level]⟩
  intro s h1 h2
  have he : assess_knowledge_level s = "intermediate" :=
    (htab s).2.1 (by linarith) h2
  refine ⟨?_, he, by rw [he]; rfl⟩
  simp only [tier_for]
  rw [if_pos h1]

/-- Witness for C10 at quiz percentage 77. -/
theorem C10_edu_threshold_table_w :
    tier_for (77 : ℚ) = "Expert" ∧ assess_knowledge_level (77 : ℚ) = "intermediate" ∧
    get_learning_resources (assess_knowledge_level (77 : ℚ)) = intermediateBucket :=
  C10_edu_threshold_table.2.2.2.1 77 (by norm_num) (by norm_num)
